import Mathlib

/-!
A shallow embedding of the happy-vote-app client (src/src/App.js) and proofs
about its validation utilities, read paths, vote-transaction pipeline and
derived view state.  Each definition is translated from the source file it
names; JavaScript numbers that the program uses as integers are modelled as
`Int`, `null`/`undefined` as `Option`, and thrown exceptions as explicit
outcome constructors.
-/

namespace HappyVote

/-- JS `Number.MAX_SAFE_INTEGER`. -/
def MAX_SAFE_INTEGER : Int := 9007199254740991

/-- JS `Number.MIN_SAFE_INTEGER`. -/
def MIN_SAFE_INTEGER : Int := -9007199254740991

/-- A JavaScript numeric value as seen by `safeNumber` (App.js 1632-1657):
either a `bigint`, a finite `number` holding an integral value, or a
non-numeric value whose `Number(...)` conversion is `NaN`/non-finite. -/
inductive JsNum
  | big (i : Int)
  | num (i : Int)
  | nan
deriving DecidableEq, Repr

/-- Model of `safeNumber` (App.js 1632-1657): clamps bigints and numbers into the JS
safe-integer range and maps non-numeric input to `0`. -/
def safeNumber : JsNum → Int
  | .big i =>
      if i > MAX_SAFE_INTEGER then MAX_SAFE_INTEGER
      else if i < MIN_SAFE_INTEGER then MIN_SAFE_INTEGER
      else i
  | .num i => max MIN_SAFE_INTEGER (min i MAX_SAFE_INTEGER)
  | .nan => 0

/-- Hexadecimal digit as matched by the character class `[a-fA-F0-9]`. -/
def isHexDigitChar (c : Char) : Bool :=
  (('0' ≤ c && c ≤ '9') || ('a' ≤ c && c ≤ 'f') || ('A' ≤ c && c ≤ 'F'))

/-- Model of `isValidAddress` (App.js 1626-1629): the regex `^0x[a-fA-F0-9]{40}$`
applied to the string's characters (a non-string or empty value is rejected
by the guard, which the empty-string case of the regex also rejects). -/
def isValidAddress (address : String) : Bool :=
  match address.data with
  | '0' :: 'x' :: rest => rest.length == 40 && rest.all isHexDigitChar
  | _ => false

/-- The property the spec states for address validation: the string is
exactly 42 characters long, begins with the two characters `0x`, and every
one of the remaining 40 characters is a case-insensitive hex digit. -/
def specWellFormedAddress (s : String) : Bool :=
  s.data.length == 42 &&
  (s.data.take 2 == ['0', 'x']) &&
  (s.data.drop 2).all isHexDigitChar

/-- Constant `maxTime` of the countdown effect (App.js 3613): one year in seconds. -/
def ONE_YEAR_SECONDS : Int := 365 * 24 * 60 * 60

/-- The clamp applied to the countdown value (App.js 3614):
`Math.max(0, Math.min(timeLeft, maxTime))`. -/
def clampCountdown (seconds : Int) : Int :=
  max 0 (min seconds ONE_YEAR_SECONDS)

/-- JS `Math.round` on an exact rational `a / b` with `b > 0`:
round half toward positive infinity, i.e. `⌊a/b + 1/2⌋`. -/
def jsRound (a b : Int) : Int := Int.fdiv (2 * a + b) (2 * b)

/-- Model of `happyPercent` (App.js 3792): `totalVotes ? Math.round(happyVotes /
totalVotes * 100) : 0`. -/
def happyPercent (happyVotes sadVotes : Int) : Int :=
  let totalVotes := happyVotes + sadVotes
  if totalVotes = 0 then 0 else jsRound (happyVotes * 100) totalVotes

/-- Model of `sadPercent` (App.js 3793): `totalVotes ? 100 - happyPercent : 0`. -/
def sadPercent (happyVotes sadVotes : Int) : Int :=
  let totalVotes := happyVotes + sadVotes
  if totalVotes = 0 then 0 else 100 - happyPercent happyVotes sadVotes

/-- ASCII lower-casing of a single character, as the WHATWG URL parser
applies to scheme and host. -/
def asciiLower (c : Char) : Char :=
  if 'A' ≤ c && c ≤ 'Z' then Char.ofNat (c.toNat + 32) else c

/-- Characters permitted in a URL scheme. -/
def isSchemeChar (c : Char) : Bool :=
  c.isAlpha || c.isDigit || c == '+' || c == '-' || c == '.'

/-- Splits `scheme://rest` at the first colon, requiring the two slashes
that `https` URLs carry.  Returns the scheme characters and the remainder
after `://`. -/
def splitScheme : List Char → Option (List Char × List Char)
  | [] => none
  | c :: rest =>
      if c == ':' then
        match rest with
        | '/' :: '/' :: tail => some ([], tail)
        | _ => none
      else
        match splitScheme rest with
        | some (sch, tail) => some (c :: sch, tail)
        | none => none

/-- Parsed scheme and hostname of an absolute URL, both lower-cased. -/
structure UrlParts where
  scheme : List Char
  hostname : List Char
deriving DecidableEq, Repr

/-- Model of the JS `new URL(url)` constructor restricted to what
`isValidRpcUrl` consumes: for a `scheme://authority[/...]` URL it yields the
lower-cased scheme and hostname (user-info and port stripped); anything else
is a parse failure (the constructor throws).  Exotic forms the full WHATWG
parser would accept (scheme without `//`, IPv6 hosts, percent-escapes) are
outside this model and treated as unparseable. -/
def parseUrl (url : String) : Option UrlParts :=
  match splitScheme url.data with
  | none => none
  | some (schemeChars, afterScheme) =>
      let authority := afterScheme.takeWhile
        (fun c => !(c == '/') && !(c == '?') && !(c == '#'))
      let hostPort :=
        match (authority.splitOn '@').reverse with
        | h :: _ => h
        | [] => authority
      let host := hostPort.takeWhile (fun c => !(c == ':'))
      if schemeChars.isEmpty || host.isEmpty ||
         !(schemeChars.all isSchemeChar) then none
      else some ⟨schemeChars.map asciiLower, host.map asciiLower⟩

/-- Whitelist `ALLOWED_RPC_DOMAINS` (App.js 1674-1681). -/
def ALLOWED_RPC_DOMAINS : List String :=
  [ "rpc1.monad.xyz",
    "rpc.monad.xyz",
    "testnet-rpc.monad.xyz",
    "ethereum-sepolia-rpc.publicnode.com",
    "eth.llamarpc.com",
    "base-rpc.publicnode.com" ]

/-- Boolean test that list `l` ends with the list `tail`
(JS `String.endsWith`). -/
def listEndsWith (l tail : List Char) : Bool :=
  l.drop (l.length - tail.length) == tail

/-- Model of `isValidRpcUrl` (App.js 1684-1696): the URL must parse, the
protocol must be `https:`, and the hostname must equal an allow-listed
domain or end with `"." + domain` for one of them. -/
def isValidRpcUrl (url : String) : Bool :=
  match parseUrl url with
  | none => false
  | some u =>
      (u.scheme == "https".data) &&
      ALLOWED_RPC_DOMAINS.any (fun domain =>
        u.hostname == domain.data || listEndsWith u.hostname ('.' :: domain.data))

/-- A host is a (strict) subdomain of `domain` when it ends with a dot
followed by `domain`. -/
def isSubdomainOf (host : List Char) (domain : String) : Bool :=
  listEndsWith host ('.' :: domain.data)

/-- The property the spec states for `isAllowedRpcUrl`: the string parses as
an absolute URL, its scheme is the secure HTTP variant, and its host equals
or is a subdomain of one of the fixed allow-listed RPC hosts. -/
def specAllowedRpcUrl (url : String) : Bool :=
  match parseUrl url with
  | none => false
  | some u =>
      (u.scheme == "https".data) &&
      ALLOWED_RPC_DOMAINS.any (fun domain =>
        u.hostname == domain.data || isSubdomainOf u.hostname domain)

/-- Sentinel unset contract address `ZERO_ADDRESS` (App.js 1595). -/
def ZERO_ADDRESS : String := "0x0000000000000000000000000000000000000000"

/-- One entry of the static network registry (App.js 1723-1789), restricted
to the fields the verified operations consult.  Contract addresses are the
in-source defaults (the build-time environment overrides are absent). -/
structure NetworkConfig where
  key : String
  chainId : Nat
  rpcUrls : List String
  contractAddress : String
  hasLeaderboard : Bool
deriving DecidableEq, Repr

/-- Registry `NETWORK_LIST` (App.js 1723-1789). -/
def NETWORK_LIST : List NetworkConfig :=
  [ ⟨"mainnet", 143, ["https://rpc1.monad.xyz"],
      "0xdFFEFD8eF040702A4657a98f189860169104257A", true⟩,
    ⟨"ethMainnet", 1, ["https://eth.llamarpc.com"], ZERO_ADDRESS, true⟩,
    ⟨"baseMainnet", 8453, ["https://base-rpc.publicnode.com"], ZERO_ADDRESS, true⟩,
    ⟨"testnet", 10143, ["https://testnet-rpc.monad.xyz"],
      "0x40198e59306181e69affa25c69c5ba50f8f4cd0e", false⟩,
    ⟨"sepolia", 11155111, ["https://ethereum-sepolia-rpc.publicnode.com"],
      ZERO_ADDRESS, true⟩ ]

/-- Keyed lookup `NETWORKS[networkKey]` (App.js 1791-1794). -/
def NETWORKS (networkKey : String) : Option NetworkConfig :=
  NETWORK_LIST.find? (fun c => c.key == networkKey)

/-- Model of `getNetworkClient` (App.js 1863-1896).  A constructed client is
identified by the RPC endpoint it talks to; `none` models the `null`
returns.  The per-key cache reuses the same endpoint and is dropped from the
model. -/
def getNetworkClient (networkKey : String) : Option String :=
  match NETWORKS networkKey with
  | none => none
  | some config =>
      match config.rpcUrls with
      | [] => none
      | rpcUrl :: _ => if isValidRpcUrl rpcUrl then some rpcUrl else none

/-- The cooldown-related slice of the React state: `canVote` (App.js 1829)
and `timeLeft` (App.js 1830), `none` modelling `null`. -/
structure VoteView where
  canVote : Bool
  timeLeft : Option Int
deriving DecidableEq, Repr

/-- Initial state at startup: `useState(false)` for `canVote` and
`useState(null)` for `timeLeft` (App.js 1829-1830). -/
def initialVoteView : VoteView := ⟨false, none⟩

/-- State written by `disconnectWallet` (App.js 3298-3299):
`setCanVote(false)` and `setTimeLeft(null)`. -/
def disconnectVoteView : VoteView := ⟨false, none⟩

/-- State written by the configuration-error short circuits of
`fetchWalletConnectState` (App.js 2249-2250, 2263-2264, 2274-2275):
`setCanVote(false)` and `setTimeLeft(null)`. -/
def resetVoteView : VoteView := ⟨false, none⟩

/-- State written by a successful cooldown refresh (App.js 2325-2341 and
3189-3207): `canVote` from the chain, and `timeLeft` only queried and set
when `canVote` is false, else `null`. -/
def refreshVoteView (chainCanVote : Bool) (seconds : JsNum) : VoteView :=
  if chainCanVote then ⟨true, none⟩ else ⟨false, some (safeNumber seconds)⟩

/-- One tick of the countdown interval (App.js 3617-3624): a null (or
non-numeric) previous value is replaced by `0` (the guard at App.js 3619),
otherwise the value is decremented and clamped into `[0, maxTime]`;
`canVote` is left alone either way. -/
def tickVoteView (v : VoteView) : VoteView :=
  match v.timeLeft with
  | none => { v with timeLeft := some 0 }
  | some t => { v with timeLeft := some (max 0 (min (t - 1) ONE_YEAR_SECONDS)) }

/-- The spec's cooldown invariant: `timeLeft` is `null` iff `canVote`. -/
def cooldownInvariant (v : VoteView) : Prop :=
  v.timeLeft = none ↔ v.canVote = true

/-- The direction of the invariant the code maintains everywhere: when
`canVote` is true the cooldown field is `null`. -/
def weakCooldownInvariant (v : VoteView) : Prop :=
  v.canVote = true → v.timeLeft = none

instance (v : VoteView) : Decidable (cooldownInvariant v) := by
  unfold cooldownInvariant
  infer_instance

instance (v : VoteView) : Decidable (weakCooldownInvariant v) := by
  unfold weakCooldownInvariant
  infer_instance

/-- A user-visible notification, as produced by `showMessage`. -/
structure MsgEvent where
  text : String
  kind : String
deriving DecidableEq, Repr

/-- Message `showMessage("Vote successful!", "success")` (App.js 2881 and
3251). -/
def successMsg : MsgEvent := ⟨"Vote successful!", "success"⟩

/-- Message shown when the post-timeout lookup finds no receipt (App.js
3094); its text carries the transaction hash for manual verification. -/
def manualCheckMsg : MsgEvent :=
  ⟨"Transaction sent but not yet confirmed. Please check the transaction status manually. Hash: <tx.hash>", "warning"⟩

/-- Message shown when the post-timeout lookup itself throws (App.js 3141);
its text carries the transaction hash for manual verification. -/
def manualCheckFailedMsg : MsgEvent :=
  ⟨"Transaction sent but confirmation failed. Please check the transaction status manually. Hash: <tx.hash>", "warning"⟩

/-- Message `showMessage("Transaction failed. Please try again.", "error")`
for a mined receipt whose status is not success (App.js 3169). -/
def txFailedMsg : MsgEvent := ⟨"Transaction failed. Please try again.", "error"⟩

/-- Message shown by the nonce-error branch of the send handler
(App.js 3019). -/
def nonceErrMsg : MsgEvent :=
  ⟨"Nonce error. Please refresh the page and try again.", "error"⟩

/-- Message shown by the insufficient-funds branch of the send handler
(App.js 3027). -/
def fundsErrMsg : MsgEvent :=
  ⟨"Insufficient funds for transaction. Please add more MON to your wallet.", "error"⟩

/-- Message `showMessage("Transaction rejected by user", "error")` chosen by
the general catch for user-rejection errors (App.js 3272-3273). -/
def rejectedMsg : MsgEvent := ⟨"Transaction rejected by user", "error"⟩

/-- Generic message of the general catch (App.js 3267, 3275): a "Voting
failed" error whose suffix repeats the thrown error's text. -/
def votingFailedMsg : MsgEvent := ⟨"Voting failed: <err.message>", "error"⟩

/-- A mined transaction receipt; `status` is `1` for success, `0` for
reverted execution. -/
structure Receipt where
  status : Int
deriving DecidableEq, Repr

/-- Outcome of sending the transaction through the wallet. -/
inductive SendOutcome
  | sent
  | userRejected
  | nonceError
  | insufficientFunds
  | otherError
deriving DecidableEq, Repr

/-- Outcome of awaiting the submitted transaction.  For the injected path
`mined r` is `tx.wait()` resolving with receipt `r` and `timeout` is the
`Promise.race` timer firing (App.js 3061-3066); for the WalletConnect path
`mined r` is viem's `waitForTransactionReceipt` returning `r` — which it
does for success and reverted receipts alike — and `timeout`/`otherError`
are it throwing (App.js 2872-2878). -/
inductive WaitOutcome
  | mined (r : Receipt)
  | timeout
  | userRejected
  | otherError
deriving DecidableEq, Repr

/-- Values the refresh reads return from the chain after a vote
(`getVotes`, `canVote`, `timeUntilNextVote`). -/
structure ChainView where
  happy : JsNum
  sad : JsNum
  chainCanVote : Bool
  seconds : JsNum
deriving DecidableEq, Repr

/-- The tally/cooldown slice of the displayed React state. -/
structure Display where
  happyVotes : Int
  sadVotes : Int
  canVote : Bool
  timeLeft : Option Int
deriving DecidableEq, Repr

/-- A display refresh from chain reads (App.js 3099-3125, 3181-3207 and
2285-2341): tallies through `safeNumber`, `canVote` from the chain, and
`timeLeft` set only when the chain reports voting blocked, else `null`. -/
def refreshDisplay (c : ChainView) (d : Display) : Display :=
  { d with
      happyVotes := safeNumber c.happy,
      sadVotes := safeNumber c.sad,
      canVote := c.chainCanVote,
      timeLeft := if c.chainCanVote then none else some (safeNumber c.seconds) }

/-- Fallback gas used when estimation throws on the injected path
(App.js 2968): `95000n` for a happy vote, `110000n` for a sad one. -/
def FALLBACK_GAS (isHappy : Bool) : Int := if isHappy then 95000 else 110000

/-- Gas-limit multiplier in percent (App.js 2827 and 2973): `150n` for a
happy vote, `170n` for a sad one. -/
def GAS_MULTIPLIER (isHappy : Bool) : Int := if isHappy then 150 else 170

/-- External responses consumed by one injected-wallet (MetaMask/Rabby)
vote attempt, from gas estimation onwards. -/
structure MMEnv where
  estimatedGas : Option Nat
  send : SendOutcome
  wait : WaitOutcome
  manualReceipt : Option (Option Receipt)
  chain : ChainView
deriving DecidableEq, Repr

/-- External responses consumed by one WalletConnect vote attempt, from gas
estimation onwards. -/
structure WCEnv where
  estimatedGas : Option Nat
  send : SendOutcome
  wait : WaitOutcome
  chain : ChainView
deriving DecidableEq, Repr

/-- Observable result of one vote attempt: the displayed state afterwards,
the `showMessage` calls in order, whether the fixed default gas was used,
the gas limit attached to the submitted transaction (`none` when no
transaction was sent), and whether the one-shot manual receipt lookup ran. -/
structure VoteOut where
  display : Display
  messages : List MsgEvent
  usedFallbackGas : Bool
  sentGasLimit : Option Int
  manualLookupDone : Bool
deriving DecidableEq, Repr

/-- The receipt-status gate of the injected path (App.js 3152-3254): a
missing-or-failed status aborts with an error (the throw at 3170 lands in
the general catch, which appends its generic message), a success status
refreshes the display from chain reads and reports success. -/
def mmConfirm (r : Receipt) (chain : ChainView) (d : Display)
    (usedFallback : Bool) (gas : Option Int) (lookedUp : Bool) : VoteOut :=
  if r.status == 1 then
    ⟨refreshDisplay chain d, [successMsg], usedFallback, gas, lookedUp⟩
  else
    ⟨d, [txFailedMsg, votingFailedMsg], usedFallback, gas, lookedUp⟩

/-- Model of the injected-wallet (MetaMask/Rabby) arm of `vote`
(App.js 2898-3260), from gas estimation onwards: estimation failure falls
back to the fixed default (App.js 2962-2970); the estimate is scaled by the
per-outcome multiplier (App.js 2972-2974); send errors terminate the
attempt through the general catch (App.js 3004-3033, 3265-3280); a
confirmation timeout triggers the one-shot `getTransactionReceipt` lookup
(App.js 3078-3148); and a mined receipt is gated on its status
(App.js 3152-3254). -/
def mmVote (isHappy : Bool) (env : MMEnv) (d : Display) : VoteOut :=
  let estimatedGas : Int :=
    match env.estimatedGas with
    | some g => (g : Int)
    | none => FALLBACK_GAS isHappy
  let usedFallback := env.estimatedGas.isNone
  let increasedGasLimit := estimatedGas * GAS_MULTIPLIER isHappy / 100
  match env.send with
  | .userRejected => ⟨d, [rejectedMsg], usedFallback, none, false⟩
  | .nonceError => ⟨d, [nonceErrMsg, votingFailedMsg], usedFallback, none, false⟩
  | .insufficientFunds => ⟨d, [fundsErrMsg, votingFailedMsg], usedFallback, none, false⟩
  | .otherError => ⟨d, [votingFailedMsg], usedFallback, none, false⟩
  | .sent =>
      match env.wait with
      | .userRejected => ⟨d, [rejectedMsg], usedFallback, some increasedGasLimit, false⟩
      | .otherError => ⟨d, [votingFailedMsg], usedFallback, some increasedGasLimit, false⟩
      | .timeout =>
          match env.manualReceipt with
          | none =>
              ⟨d, [manualCheckFailedMsg], usedFallback, some increasedGasLimit, true⟩
          | some none =>
              ⟨refreshDisplay env.chain d, [manualCheckMsg], usedFallback,
                some increasedGasLimit, true⟩
          | some (some r) =>
              mmConfirm r env.chain d usedFallback (some increasedGasLimit) true
      | .mined r =>
          mmConfirm r env.chain d usedFallback (some increasedGasLimit) false

/-- Model of the WalletConnect arm of `vote` (App.js 2777-2897), from gas
estimation onwards: an `estimateContractGas` throw propagates through the
inner catch (App.js 2882-2896) to the general catch — no fallback, nothing
sent; otherwise the estimate is scaled by the per-outcome multiplier
(App.js 2826-2828) and the transaction sent; any `waitForTransactionReceipt`
throw (timeout included) is rethrown to the general catch with no manual
lookup (App.js 2872-2878); and a returned receipt — its status never
inspected — leads to `fetchWalletConnectState` and the success message
(App.js 2880-2881). -/
def wcVote (isHappy : Bool) (env : WCEnv) (d : Display) : VoteOut :=
  match env.estimatedGas with
  | none => ⟨d, [votingFailedMsg], false, none, false⟩
  | some g =>
      let increasedGasLimit := (g : Int) * GAS_MULTIPLIER isHappy / 100
      match env.send with
      | .userRejected => ⟨d, [rejectedMsg], false, none, false⟩
      | .sent =>
          match env.wait with
          | .mined _ =>
              ⟨refreshDisplay env.chain d, [successMsg], false,
                some increasedGasLimit, false⟩
          | .userRejected => ⟨d, [rejectedMsg], false, some increasedGasLimit, false⟩
          | _ => ⟨d, [votingFailedMsg], false, some increasedGasLimit, false⟩
      | _ => ⟨d, [votingFailedMsg], false, none, false⟩

/-- The leaderboard mapping step (App.js 2349-2356): pair each returned
address (nulled out when it fails validation) with `safeNumber` of the
count at the same index (`undefined`, hence `NaN`, when the count array is
shorter). -/
def leaderboardRows (addresses : List String) (happyCounts : List JsNum) :
    List (Option String × Int) :=
  (addresses.enum).map (fun p =>
    ((if isValidAddress p.2 then some p.2 else none),
     safeNumber ((happyCounts.get? p.1).getD JsNum.nan)))

/-- Model of the leaderboard read (App.js 2343-2361): the empty list when
the network's `hasLeaderboard` flag is false, otherwise the mapped rows
filtered to those with a surviving address and a positive count
(App.js 2357). -/
def getLeaderboard (hasLeaderboard : Bool) (addresses : List String)
    (happyCounts : List JsNum) : List (String × Int) :=
  if hasLeaderboard then
    (leaderboardRows addresses happyCounts).filterMap (fun row =>
      match row.1 with
      | some addr => if row.2 > 0 then some (addr, row.2) else none
      | none => none)
  else []

/-- Rows shown by default, `leaderboard.slice(0, 10)` (App.js 3794). -/
def topLeaderboard (leaderboard : List (String × Int)) : List (String × Int) :=
  leaderboard.take 10

/-- Rows of the expandable remainder, `leaderboard.slice(10)`
(App.js 3795). -/
def extraLeaderboard (leaderboard : List (String × Int)) : List (String × Int) :=
  leaderboard.drop 10

/-- External responses consumed by one run of the wallet-independent stats
read: `none` for a read models the call throwing, and `hasRefundFn` is the
structural ABI probe for `refundEnabled` (App.js 2124-2126). -/
structure StatsEnv where
  getVotes : Option (JsNum × JsNum)
  hasRefundFn : Bool
  refundRead : Option Bool
  leaderboardRead : Option (List String × List JsNum)
deriving DecidableEq, Repr

/-- The slice of displayed state that `fetchSelectedNetworkStats` writes,
plus the `showMessage` calls it makes. -/
structure StatsOut where
  happyVotes : Int
  sadVotes : Int
  leaderboard : List (String × Int)
  refundEnabled : Bool
  messages : List MsgEvent
deriving DecidableEq, Repr

/-- Model of `fetchSelectedNetworkStats` (App.js 2071-2191), the tally read
that runs independently of any wallet connection: configuration problems
(unset or malformed contract address, no client) zero the tallies and
leaderboard and return; a `getVotes` throw lands in the outer catch
(App.js 2183-2190) which zeroes everything; the refund and leaderboard
reads have inner catches that default to `false` and `[]`.  No branch calls
`showMessage`, so `messages` is always carried over unchanged. -/
def fetchSelectedNetworkStats (networkKey : String) (env : StatsEnv)
    (prev : StatsOut) : StatsOut :=
  match (NETWORKS networkKey).orElse (fun _ => NETWORKS "mainnet") with
  | none =>
      { prev with happyVotes := 0, sadVotes := 0, leaderboard := [] }
  | some config =>
      if config.contractAddress == ZERO_ADDRESS then
        { prev with happyVotes := 0, sadVotes := 0, leaderboard := [] }
      else if !(isValidAddress config.contractAddress) then
        { prev with happyVotes := 0, sadVotes := 0, leaderboard := [] }
      else if (getNetworkClient config.key).isNone then
        { prev with happyVotes := 0, sadVotes := 0, leaderboard := [] }
      else
        match env.getVotes with
        | none =>
            { prev with happyVotes := 0, sadVotes := 0, leaderboard := [],
                        refundEnabled := false }
        | some (happy, sad) =>
            let refund :=
              if env.hasRefundFn then (env.refundRead.getD false) else false
            let lb :=
              if config.hasLeaderboard then
                match env.leaderboardRead with
                | none => []
                | some (addrs, counts) => getLeaderboard true addrs counts
              else []
            { prev with
                happyVotes := safeNumber happy,
                sadVotes := safeNumber sad,
                refundEnabled := refund,
                leaderboard := lb }

end HappyVote

namespace HappyVote

/-- Helper: the regex-shaped address check agrees with the length/take/drop
formulation, at the level of character lists. -/
theorem addrCheck_eq (l : List Char) :
    (match l with
     | '0' :: 'x' :: rest => rest.length == 40 && rest.all isHexDigitChar
     | _ => false) =
    (l.length == 42 && (l.take 2 == ['0', 'x']) && (l.drop 2).all isHexDigitChar) := by
  match l with
  | [] => rfl
  | [c] => simp
  | c :: c2 :: rest =>
      by_cases hc : c = '0'
      · by_cases hc2 : c2 = 'x'
        · subst hc
          subst hc2
          show (rest.length == 40 && rest.all isHexDigitChar) = _
          simp only [List.length_cons, List.take, List.drop]
          rcases eq_or_ne rest.length 40 with h | h
          · simp [h]
          · have h2 : rest.length + 1 + 1 ≠ 42 := by omega
            simp [h, h2]
        · have : (match c :: c2 :: rest with
             | '0' :: 'x' :: rest => rest.length == 40 && rest.all isHexDigitChar
             | _ => false) = false := by
            subst hc
            simp [hc2]
          rw [this]
          simp [List.take, hc2]
      · have : (match c :: c2 :: rest with
           | '0' :: 'x' :: rest => rest.length == 40 && rest.all isHexDigitChar
           | _ => false) = false := by
          simp [hc]
        rw [this]
        simp [List.take, hc]

/-- C7: for every string, `isValidAddress` accepts exactly the strings of 42
characters that are the `0x` marker followed by 40 case-insensitive hex
digits; empty, too-short, too-long and non-hex inputs are rejected. -/
theorem C7_address_validation :
    (∀ s : String, isValidAddress s = specWellFormedAddress s) ∧
    isValidAddress "" = false ∧
    isValidAddress "0x1234" = false ∧
    isValidAddress "0xdFFEFD8eF040702A4657a98f189860169104257A" = true ∧
    isValidAddress "0xdFFEFD8eF040702A4657a98f189860169104257A0" = false ∧
    isValidAddress "0xZZFEFD8eF040702A4657a98f18986016910425ZZ" = false := by
  refine ⟨?_, by decide, by decide, by decide, by decide, by decide⟩
  intro s
  show (match s.data with
        | '0' :: 'x' :: rest => rest.length == 40 && rest.all isHexDigitChar
        | _ => false) = _
  rw [addrCheck_eq]
  rfl

/-- C8: the countdown clamp maps `-5` to `0`, `99999999999` to the one-year
bound `31536000`, and `3600` to itself; a non-numeric contract read value is
converted to `0` by `safeNumber`. -/
theorem C8_countdown_clamp :
    clampCountdown (-5) = 0 ∧
    clampCountdown 99999999999 = ONE_YEAR_SECONDS ∧
    ONE_YEAR_SECONDS = 31536000 ∧
    clampCountdown 3600 = 3600 ∧
    safeNumber JsNum.nan = 0 := by decide

/-- C10: displayed happy and sad percentages sum to exactly 100 whenever the
total vote count is positive (the sad percentage is 100 minus the rounded
happy percentage), and both are 0 when the total is zero. -/
theorem C10_percent_sum :
    (∀ happy sad : Int, 0 < happy + sad →
      happyPercent happy sad + sadPercent happy sad = 100) ∧
    (∀ happy sad : Int, happy + sad = 0 →
      happyPercent happy sad = 0 ∧ sadPercent happy sad = 0) := by
  constructor
  · intro happy sad hpos
    have hne : happy + sad ≠ 0 := by omega
    simp only [happyPercent, sadPercent, if_neg hne]
    omega
  · intro happy sad hz
    simp [happyPercent, sadPercent, hz]

/-- Witness for C10 at the spec's illustrative tally `happy = 10, sad = 5`
and at the empty tally. -/
theorem C10_witness :
    (happyPercent 10 5 + sadPercent 10 5 = 100) ∧
    (happyPercent 0 0 = 0 ∧ sadPercent 0 0 = 0) :=
  ⟨C10_percent_sum.1 10 5 (by decide), C10_percent_sum.2 0 0 (by decide)⟩

/-- C6: `isValidRpcUrl` accepts a URL exactly when it parses with the
`https` scheme and a host equal to or a subdomain of an allow-listed RPC
host; the three spec vectors hold, and `getNetworkClient` constructs a
client only for an endpoint passing the check, returning no client when the
configured primary RPC URL fails it. -/
theorem C6_rpc_allowlist :
    (∀ url : String, isValidRpcUrl url = specAllowedRpcUrl url) ∧
    isValidRpcUrl "https://rpc1.monad.xyz" = true ∧
    isValidRpcUrl "http://rpc1.monad.xyz" = false ∧
    isValidRpcUrl "https://evil.example.com" = false ∧
    (∀ networkKey rpcUrl, getNetworkClient networkKey = some rpcUrl →
      isValidRpcUrl rpcUrl = true) ∧
    (∀ networkKey config rpcUrl rest,
      NETWORKS networkKey = some config →
      config.rpcUrls = rpcUrl :: rest →
      isValidRpcUrl rpcUrl = false →
      getNetworkClient networkKey = none) := by
  refine ⟨?_, by decide, by decide, by decide, ?_, ?_⟩
  · intro url
    rfl
  · intro networkKey rpcUrl h
    unfold getNetworkClient at h
    cases hN : NETWORKS networkKey with
    | none => rw [hN] at h; cases h
    | some config =>
        rw [hN] at h
        dsimp only at h
        cases hU : config.rpcUrls with
        | nil => rw [hU] at h; cases h
        | cons u us =>
            rw [hU] at h
            dsimp only at h
            by_cases hv : isValidRpcUrl u = true
            · rw [if_pos hv] at h
              cases h
              exact hv
            · rw [if_neg hv] at h
              cases h
  · intro networkKey config rpcUrl rest hN hU hbad
    unfold getNetworkClient
    rw [hN]
    dsimp only
    rw [hU]
    dsimp only
    rw [hbad]
    simp

/-- Witness for C6 at the mainnet network and a corrupted configuration. -/
theorem C6_witness :
    isValidRpcUrl "https://rpc1.monad.xyz" =
      specAllowedRpcUrl "https://rpc1.monad.xyz" ∧
    isValidRpcUrl "https://rpc1.monad.xyz" = true :=
  ⟨C6_rpc_allowlist.1 "https://rpc1.monad.xyz",
   C6_rpc_allowlist.2.2.2.2.1 "mainnet" "https://rpc1.monad.xyz" (by decide)⟩

/-- C5: the wallet-independent tally read `fetchSelectedNetworkStats` never
raises a user-facing message on any input, and a failing `getVotes` read
leaves the displayed tallies at `{0, 0}`. -/
theorem C5_stats_fail_soft :
    ∀ (networkKey : String) (env : StatsEnv) (prev : StatsOut),
      (fetchSelectedNetworkStats networkKey env prev).messages = prev.messages ∧
      (env.getVotes = none →
        (fetchSelectedNetworkStats networkKey env prev).happyVotes = 0 ∧
        (fetchSelectedNetworkStats networkKey env prev).sadVotes = 0) := by
  intro networkKey env prev
  unfold fetchSelectedNetworkStats
  cases hN : (NETWORKS networkKey).orElse (fun _ => NETWORKS "mainnet") with
  | none => simp
  | some config =>
      simp only
      split
      · simp
      · split
        · simp
        · split
          · simp
          · cases hV : env.getVotes with
            | none => simp
            | some p => simp [hV]

/-- Witness for C5: a failing `getVotes` read on the mainnet key. -/
theorem C5_witness :
    (fetchSelectedNetworkStats "mainnet" ⟨none, true, none, none⟩
        ⟨10, 5, [], false, []⟩).messages = [] ∧
    (fetchSelectedNetworkStats "mainnet" ⟨none, true, none, none⟩
        ⟨10, 5, [], false, []⟩).happyVotes = 0 :=
  ⟨(C5_stats_fail_soft "mainnet" ⟨none, true, none, none⟩ ⟨10, 5, [], false, []⟩).1,
   ((C5_stats_fail_soft "mainnet" ⟨none, true, none, none⟩
      ⟨10, 5, [], false, []⟩).2 rfl).1⟩

/-- C9: the leaderboard read is empty when the capability flag is off, every
surviving entry has a validated address and a positive count, and on a read
of 12 entries of which 2 carry malformed addresses, exactly 10 rows are
shown by default and the expandable remainder is empty — the malformed
entries are dropped entirely. -/
theorem C9_leaderboard :
    (∀ addresses happyCounts,
      getLeaderboard false addresses happyCounts = []) ∧
    (∀ addresses happyCounts entry,
      entry ∈ getLeaderboard true addresses happyCounts →
      isValidAddress entry.1 = true ∧ 0 < entry.2) ∧
    (let addresses :=
      [ "0x1111111111111111111111111111111111111111",
        "0x2222222222222222222222222222222222222222",
        "0x1234",
        "0x3333333333333333333333333333333333333333",
        "0x4444444444444444444444444444444444444444",
        "0x5555555555555555555555555555555555555555",
        "0x6666666666666666666666666666666666666666",
        "0xZZ77777777777777777777777777777777777777",
        "0x8888888888888888888888888888888888888888",
        "0x9999999999999999999999999999999999999999",
        "0xaaaaaaaaaaaaaaaaaaaaaaaaaaaaaaaaaaaaaaaa",
        "0xbbbbbbbbbbbbbbbbbbbbbbbbbbbbbbbbbbbbbbbb" ]
     let happyCounts := List.replicate 12 (JsNum.num 7)
     addresses.length = 12 ∧
     (getLeaderboard true addresses happyCounts).length = 10 ∧
     (topLeaderboard (getLeaderboard true addresses happyCounts)).length = 10 ∧
     extraLeaderboard (getLeaderboard true addresses happyCounts) = []) := by
  refine ⟨?_, ?_, by decide⟩
  · intro addresses happyCounts
    rfl
  · intro addresses happyCounts entry hmem
    simp only [getLeaderboard, if_pos] at hmem
    rw [List.mem_filterMap] at hmem
    obtain ⟨row, hrow, heq⟩ := hmem
    rcases row with ⟨oaddr, n⟩
    cases oaddr with
    | none => simp at heq
    | some a =>
        dsimp only at heq
        by_cases hn : n > 0
        · rw [if_pos hn] at heq
          cases heq
          refine ⟨?_, hn⟩
          simp only [leaderboardRows, List.mem_map] at hrow
          obtain ⟨p, hp, hfeq⟩ := hrow
          have h1 := congrArg Prod.fst hfeq
          dsimp only at h1
          by_cases hv : isValidAddress p.2 = true
          · rw [if_pos hv] at h1
            cases h1
            exact hv
          · rw [if_neg hv] at h1
            cases h1
        · rw [if_neg hn] at heq
          cases heq

/-- Witness for C9: a concrete surviving entry is validated and positive. -/
theorem C9_witness :
    isValidAddress ("0x1111111111111111111111111111111111111111") = true ∧
    (0 : Int) < 7 :=
  C9_leaderboard.2.1
    ["0x1111111111111111111111111111111111111111"] [JsNum.num 7]
    ("0x1111111111111111111111111111111111111111", 7) (by decide)

/-- Counterexample for C1: the claim asserts the null-iff-canVote invariant
also at the startup state and after disconnect, but both write
`canVote = false` together with `timeLeft = null`
(App.js 1829-1830 and 3298-3299), so the "only if" direction fails there. -/
theorem C1_counterexample :
    initialVoteView.canVote = false ∧
    initialVoteView.timeLeft = none ∧
    ¬ cooldownInvariant initialVoteView ∧
    disconnectVoteView.canVote = false ∧
    disconnectVoteView.timeLeft = none ∧
    ¬ cooldownInvariant disconnectVoteView := by decide

/-- C1 as amended: after every successful cooldown refresh the invariant
`timeLeft = null ↔ canVote` holds; at startup, on disconnect and on the
configuration-error resets only the direction `canVote → timeLeft = null`
holds (those states have `canVote = false` with `timeLeft = null`).  A
countdown tick fired from a state with a non-null countdown — the only
states the effect arms the interval from (App.js 3611, 3616) — preserves
that direction; a tick whose updater runs against a null countdown instead
writes `0` into it (the guard at App.js 3619), leaving `canVote` alone. -/
theorem C1_theorem :
    (∀ (chainCanVote : Bool) (seconds : JsNum),
      cooldownInvariant (refreshVoteView chainCanVote seconds)) ∧
    weakCooldownInvariant initialVoteView ∧
    weakCooldownInvariant disconnectVoteView ∧
    weakCooldownInvariant resetVoteView ∧
    (∀ (chainCanVote : Bool) (seconds : JsNum),
      weakCooldownInvariant (refreshVoteView chainCanVote seconds)) ∧
    (∀ (v : VoteView) (t : Int), v.timeLeft = some t →
      weakCooldownInvariant v → weakCooldownInvariant (tickVoteView v)) ∧
    (∀ v : VoteView, v.timeLeft = none →
      tickVoteView v = { v with timeLeft := some 0 }) := by
  refine ⟨?_, by decide, by decide, by decide, ?_, ?_, ?_⟩
  · intro chainCanVote seconds
    cases chainCanVote <;> simp [refreshVoteView, cooldownInvariant]
  · intro chainCanVote seconds
    cases chainCanVote <;> simp [refreshVoteView, weakCooldownInvariant]
  · intro v t ht h
    rcases v with ⟨cv, tl⟩
    cases ht
    intro hcv
    exact absurd (h hcv) (by simp)
  · intro v hnone
    rcases v with ⟨cv, tl⟩
    cases hnone
    rfl

/-- Witness for C1 at a blocked refresh, a ticking countdown state, and a
tick racing a null countdown. -/
theorem C1_witness :
    cooldownInvariant (refreshVoteView false (JsNum.num 3600)) ∧
    weakCooldownInvariant (tickVoteView ⟨false, some 3600⟩) ∧
    tickVoteView ⟨true, none⟩ = ⟨true, some 0⟩ :=
  ⟨C1_theorem.1 false (JsNum.num 3600),
   C1_theorem.2.2.2.2.2.1 ⟨false, some 3600⟩ 3600 rfl (by decide),
   C1_theorem.2.2.2.2.2.2 ⟨true, none⟩ rfl⟩

/-- Counterexample for C2: on the WalletConnect path a mined receipt whose
status reports failure (status `0`, not the success value `1`) still ends
the attempt with the success message — the receipt's status is never
inspected there (App.js 2871-2881) — so the attempt does not terminate as
failed on that wallet path. -/
theorem C2_counterexample :
    ¬ ((Receipt.mk 0).status = 1) ∧
    (wcVote true
        ⟨some 50000, SendOutcome.sent, WaitOutcome.mined ⟨0⟩,
          ⟨JsNum.num 10, JsNum.num 5, true, JsNum.num 0⟩⟩
        ⟨10, 5, true, none⟩).messages = [successMsg] ∧
    successMsg.kind = "success" := by decide

/-- C2 as amended: on the injected path a mined receipt with failure status
terminates the attempt as failed — an error is shown and the displayed
tallies and `canVote` are left untouched — and the same gate applies to a
receipt recovered by the post-timeout lookup; on the WalletConnect path the
receipt status is not inspected, but the displayed tallies and `canVote`
after a mined receipt come only from fresh chain reads, never from a local
increment or clear. -/
theorem C2_theorem :
    (∀ (isHappy : Bool) (env : MMEnv) (d : Display) (r : Receipt),
      env.send = SendOutcome.sent → env.wait = WaitOutcome.mined r →
      ¬ (r.status = 1) →
      (mmVote isHappy env d).display = d ∧
      (mmVote isHappy env d).messages = [txFailedMsg, votingFailedMsg]) ∧
    (∀ (isHappy : Bool) (env : MMEnv) (d : Display) (r : Receipt),
      env.send = SendOutcome.sent → env.wait = WaitOutcome.timeout →
      env.manualReceipt = some (some r) → ¬ (r.status = 1) →
      (mmVote isHappy env d).display = d ∧
      (mmVote isHappy env d).messages = [txFailedMsg, votingFailedMsg]) ∧
    (∀ (isHappy : Bool) (env : WCEnv) (d : Display) (r : Receipt) (g : Nat),
      env.estimatedGas = some g →
      env.send = SendOutcome.sent → env.wait = WaitOutcome.mined r →
      (wcVote isHappy env d).display = refreshDisplay env.chain d) := by
  refine ⟨?_, ?_, ?_⟩
  · intro isHappy env d r hsend hwait hstatus
    rcases env with ⟨eg, send, wait, mr, chain⟩
    cases hsend
    cases hwait
    have hs : (r.status == 1) = false := by
      simp [hstatus]
    constructor <;> simp [mmVote, mmConfirm, hs]
  · intro isHappy env d r hsend hwait hmr hstatus
    rcases env with ⟨eg, send, wait, mr, chain⟩
    cases hsend
    cases hwait
    cases hmr
    have hs : (r.status == 1) = false := by
      simp [hstatus]
    constructor <;> simp [mmVote, mmConfirm, hs]
  · intro isHappy env d r g hgas hsend hwait
    rcases env with ⟨eg, send, wait, chain⟩
    cases hgas
    cases hsend
    cases hwait
    rfl

/-- Witness for C2 at a reverted receipt on the injected path and a mined
receipt on the WalletConnect path. -/
theorem C2_witness :
    ((mmVote true
        ⟨some 60000, SendOutcome.sent, WaitOutcome.mined ⟨0⟩, none,
          ⟨JsNum.num 10, JsNum.num 5, true, JsNum.num 0⟩⟩
        ⟨10, 5, true, none⟩).display = ⟨10, 5, true, none⟩ ∧
     (mmVote true
        ⟨some 60000, SendOutcome.sent, WaitOutcome.mined ⟨0⟩, none,
          ⟨JsNum.num 10, JsNum.num 5, true, JsNum.num 0⟩⟩
        ⟨10, 5, true, none⟩).messages = [txFailedMsg, votingFailedMsg]) ∧
    (wcVote false
        ⟨some 60000, SendOutcome.sent, WaitOutcome.mined ⟨1⟩,
          ⟨JsNum.num 10, JsNum.num 6, false, JsNum.num 86400⟩⟩
        ⟨10, 5, true, none⟩).display =
      refreshDisplay ⟨JsNum.num 10, JsNum.num 6, false, JsNum.num 86400⟩
        ⟨10, 5, true, none⟩ :=
  ⟨C2_theorem.1 true
      ⟨some 60000, SendOutcome.sent, WaitOutcome.mined ⟨0⟩, none,
        ⟨JsNum.num 10, JsNum.num 5, true, JsNum.num 0⟩⟩
      ⟨10, 5, true, none⟩ ⟨0⟩ rfl rfl (by decide),
   C2_theorem.2.2 false
      ⟨some 60000, SendOutcome.sent, WaitOutcome.mined ⟨1⟩,
        ⟨JsNum.num 10, JsNum.num 6, false, JsNum.num 86400⟩⟩
      ⟨10, 5, true, none⟩ ⟨1⟩ 60000 rfl rfl rfl⟩

/-- Counterexample for C3: on the WalletConnect path a confirmation-wait
timeout produces no one-shot manual receipt lookup and no message telling
the user to check the transaction by its hash — the throw is rethrown into
the general catch, which shows the generic failure message
(App.js 2872-2878, 3265-3280) — so the behaviour is not provided on every
vote submission path. -/
theorem C3_counterexample :
    (wcVote true
        ⟨some 50000, SendOutcome.sent, WaitOutcome.timeout,
          ⟨JsNum.num 10, JsNum.num 5, true, JsNum.num 0⟩⟩
        ⟨10, 5, true, none⟩).manualLookupDone = false ∧
    (wcVote true
        ⟨some 50000, SendOutcome.sent, WaitOutcome.timeout,
          ⟨JsNum.num 10, JsNum.num 5, true, JsNum.num 0⟩⟩
        ⟨10, 5, true, none⟩).messages = [votingFailedMsg] := by decide

/-- C3 as amended: on the injected path a confirmation timeout performs the
one-shot manual receipt lookup — a found success receipt proceeds to
confirmation as if the wait had succeeded, a missing receipt ends the
attempt without success and with the manual-check instruction (which names
the transaction hash), and a failing lookup likewise ends without success
with the manual-check instruction; on the WalletConnect path no manual
lookup happens on timeout and the attempt ends with the generic failure
message — still never reporting success. -/
theorem C3_theorem :
    (∀ (isHappy : Bool) (env : MMEnv) (d : Display),
      env.send = SendOutcome.sent → env.wait = WaitOutcome.timeout →
      (mmVote isHappy env d).manualLookupDone = true) ∧
    (∀ (isHappy : Bool) (env : MMEnv) (d : Display) (r : Receipt),
      env.send = SendOutcome.sent → env.wait = WaitOutcome.timeout →
      env.manualReceipt = some (some r) → r.status = 1 →
      (mmVote isHappy env d).messages = [successMsg]) ∧
    (∀ (isHappy : Bool) (env : MMEnv) (d : Display),
      env.send = SendOutcome.sent → env.wait = WaitOutcome.timeout →
      env.manualReceipt = some none →
      (mmVote isHappy env d).messages = [manualCheckMsg]) ∧
    (∀ (isHappy : Bool) (env : MMEnv) (d : Display),
      env.send = SendOutcome.sent → env.wait = WaitOutcome.timeout →
      env.manualReceipt = none →
      (mmVote isHappy env d).messages = [manualCheckFailedMsg]) ∧
    (∀ (isHappy : Bool) (env : WCEnv) (d : Display) (g : Nat),
      env.estimatedGas = some g →
      env.send = SendOutcome.sent → env.wait = WaitOutcome.timeout →
      (wcVote isHappy env d).manualLookupDone = false ∧
      (wcVote isHappy env d).messages = [votingFailedMsg]) := by
  refine ⟨?_, ?_, ?_, ?_, ?_⟩
  · intro isHappy env d hsend hwait
    rcases env with ⟨eg, send, wait, mr, chain⟩
    cases hsend
    cases hwait
    cases mr with
    | none => rfl
    | some o =>
        cases o with
        | none => rfl
        | some r =>
            simp only [mmVote, mmConfirm]
            split <;> rfl
  · intro isHappy env d r hsend hwait hmr hstatus
    rcases env with ⟨eg, send, wait, mr, chain⟩
    cases hsend
    cases hwait
    cases hmr
    simp [mmVote, mmConfirm, hstatus]
  · intro isHappy env d hsend hwait hmr
    rcases env with ⟨eg, send, wait, mr, chain⟩
    cases hsend
    cases hwait
    cases hmr
    rfl
  · intro isHappy env d hsend hwait hmr
    rcases env with ⟨eg, send, wait, mr, chain⟩
    cases hsend
    cases hwait
    cases hmr
    rfl
  · intro isHappy env d g hgas hsend hwait
    rcases env with ⟨eg, send, wait, chain⟩
    cases hgas
    cases hsend
    cases hwait
    exact ⟨rfl, rfl⟩

/-- Witness for C3 at a timeout whose manual lookup finds no receipt. -/
theorem C3_witness :
    (mmVote true
        ⟨some 60000, SendOutcome.sent, WaitOutcome.timeout, some none,
          ⟨JsNum.num 10, JsNum.num 5, true, JsNum.num 0⟩⟩
        ⟨10, 5, true, none⟩).manualLookupDone = true ∧
    (mmVote true
        ⟨some 60000, SendOutcome.sent, WaitOutcome.timeout, some none,
          ⟨JsNum.num 10, JsNum.num 5, true, JsNum.num 0⟩⟩
        ⟨10, 5, true, none⟩).messages = [manualCheckMsg] :=
  ⟨C3_theorem.1 true
      ⟨some 60000, SendOutcome.sent, WaitOutcome.timeout, some none,
        ⟨JsNum.num 10, JsNum.num 5, true, JsNum.num 0⟩⟩
      ⟨10, 5, true, none⟩ rfl rfl,
   C3_theorem.2.2.1 true
      ⟨some 60000, SendOutcome.sent, WaitOutcome.timeout, some none,
        ⟨JsNum.num 10, JsNum.num 5, true, JsNum.num 0⟩⟩
      ⟨10, 5, true, none⟩ rfl rfl rfl⟩

/-- Counterexample for C4: on the WalletConnect path an
`estimateContractGas` failure aborts the attempt with the generic failure
message — no transaction is sent and no fallback default gas is used
(App.js 2816-2897, 3265-3280) — so the fall-back-rather-than-abort
behaviour does not hold on both wallet paths. -/
theorem C4_counterexample :
    (wcVote true
        ⟨none, SendOutcome.sent, WaitOutcome.mined ⟨1⟩,
          ⟨JsNum.num 10, JsNum.num 5, true, JsNum.num 0⟩⟩
        ⟨10, 5, true, none⟩) =
      ⟨⟨10, 5, true, none⟩, [votingFailedMsg], false, none, false⟩ := by decide

/-- C4 as amended: both wallet paths scale the estimate by the same fixed
multipliers — 1.5x for happy and 1.7x for sad, the sad multiplier strictly
larger; on the injected path an estimator failure falls back to the fixed
defaults 95000 (happy) / 110000 (sad) and the attempt still submits, while
on the WalletConnect path an estimator failure aborts the attempt with no
fallback and nothing sent. -/
theorem C4_theorem :
    GAS_MULTIPLIER true = 150 ∧ GAS_MULTIPLIER false = 170 ∧
    GAS_MULTIPLIER true < GAS_MULTIPLIER false ∧
    FALLBACK_GAS true = 95000 ∧ FALLBACK_GAS false = 110000 ∧
    (∀ (isHappy : Bool) (env : MMEnv) (d : Display) (g : Nat),
      env.estimatedGas = some g → env.send = SendOutcome.sent →
      (mmVote isHappy env d).sentGasLimit =
        some ((g : Int) * GAS_MULTIPLIER isHappy / 100) ∧
      (mmVote isHappy env d).usedFallbackGas = false) ∧
    (∀ (isHappy : Bool) (env : MMEnv) (d : Display),
      env.estimatedGas = none → env.send = SendOutcome.sent →
      (mmVote isHappy env d).usedFallbackGas = true ∧
      (mmVote isHappy env d).sentGasLimit =
        some (FALLBACK_GAS isHappy * GAS_MULTIPLIER isHappy / 100)) ∧
    (∀ (isHappy : Bool) (env : WCEnv) (d : Display) (g : Nat),
      env.estimatedGas = some g → env.send = SendOutcome.sent →
      (wcVote isHappy env d).sentGasLimit =
        some ((g : Int) * GAS_MULTIPLIER isHappy / 100)) ∧
    (∀ (isHappy : Bool) (env : WCEnv) (d : Display),
      env.estimatedGas = none →
      (wcVote isHappy env d).sentGasLimit = none ∧
      (wcVote isHappy env d).usedFallbackGas = false ∧
      (wcVote isHappy env d).messages = [votingFailedMsg]) := by
  refine ⟨by decide, by decide, by decide, by decide, by decide, ?_, ?_, ?_, ?_⟩
  · intro isHappy env d g hgas hsend
    rcases env with ⟨eg, send, wait, mr, chain⟩
    cases hgas
    cases hsend
    constructor
    · cases wait with
      | mined r =>
          simp only [mmVote, mmConfirm]
          split <;> rfl
      | timeout =>
          cases mr with
          | none => rfl
          | some o =>
              cases o with
              | none => rfl
              | some r =>
                  simp only [mmVote, mmConfirm]
                  split <;> rfl
      | userRejected => rfl
      | otherError => rfl
    · cases wait with
      | mined r =>
          simp only [mmVote, mmConfirm]
          split <;> rfl
      | timeout =>
          cases mr with
          | none => rfl
          | some o =>
              cases o with
              | none => rfl
              | some r =>
                  simp only [mmVote, mmConfirm]
                  split <;> rfl
      | userRejected => rfl
      | otherError => rfl
  · intro isHappy env d hgas hsend
    rcases env with ⟨eg, send, wait, mr, chain⟩
    cases hgas
    cases hsend
    constructor
    · cases wait with
      | mined r =>
          simp only [mmVote, mmConfirm]
          split <;> rfl
      | timeout =>
          cases mr with
          | none => rfl
          | some o =>
              cases o with
              | none => rfl
              | some r =>
                  simp only [mmVote, mmConfirm]
                  split <;> rfl
      | userRejected => rfl
      | otherError => rfl
    · cases wait with
      | mined r =>
          simp only [mmVote, mmConfirm]
          split <;> rfl
      | timeout =>
          cases mr with
          | none => rfl
          | some o =>
              cases o with
              | none => rfl
              | some r =>
                  simp only [mmVote, mmConfirm]
                  split <;> rfl
      | userRejected => rfl
      | otherError => rfl
  · intro isHappy env d g hgas hsend
    rcases env with ⟨eg, send, wait, chain⟩
    cases hgas
    cases hsend
    cases wait with
    | mined r => rfl
    | timeout => rfl
    | userRejected => rfl
    | otherError => rfl
  · intro isHappy env d hgas
    rcases env with ⟨eg, send, wait, chain⟩
    cases hgas
    exact ⟨rfl, rfl, rfl⟩

/-- Witness for C4 at a failed estimation on both paths and a successful
estimation of 60000 gas. -/
theorem C4_witness :
    ((mmVote false
        ⟨none, SendOutcome.sent, WaitOutcome.mined ⟨1⟩, none,
          ⟨JsNum.num 10, JsNum.num 6, false, JsNum.num 86400⟩⟩
        ⟨10, 5, true, none⟩).usedFallbackGas = true ∧
     (mmVote false
        ⟨none, SendOutcome.sent, WaitOutcome.mined ⟨1⟩, none,
          ⟨JsNum.num 10, JsNum.num 6, false, JsNum.num 86400⟩⟩
        ⟨10, 5, true, none⟩).sentGasLimit = some (110000 * 170 / 100)) ∧
    (wcVote true
        ⟨some 60000, SendOutcome.sent, WaitOutcome.mined ⟨1⟩,
          ⟨JsNum.num 11, JsNum.num 5, false, JsNum.num 86400⟩⟩
        ⟨10, 5, true, none⟩).sentGasLimit = some (60000 * 150 / 100) :=
  ⟨C4_theorem.2.2.2.2.2.2.1 false
      ⟨none, SendOutcome.sent, WaitOutcome.mined ⟨1⟩, none,
        ⟨JsNum.num 10, JsNum.num 6, false, JsNum.num 86400⟩⟩
      ⟨10, 5, true, none⟩ rfl rfl,
   C4_theorem.2.2.2.2.2.2.2.1 true
      ⟨some 60000, SendOutcome.sent, WaitOutcome.mined ⟨1⟩,
        ⟨JsNum.num 11, JsNum.num 5, false, JsNum.num 86400⟩⟩
      ⟨10, 5, true, none⟩ 60000 rfl rfl⟩

end HappyVote
